import Mathlib

/-!
# Structured errors (`package errors`): embedding and verified properties

A shallow embedding of `error.go` and `errors.go`.

* A `*Error` receiver is an `ErrorPtr` (`Option Error`): `none` is the Go `nil`
  pointer, `some v` a pointer to the struct value `v`.
* A Go `error` interface value is an `Option GoError`: `none` is the nil
  interface.
* A computation that can panic returns `Except String _`, the string being the
  panic value.  Field reads through a nil pointer are modelled as such a panic,
  so that safety on the nil receiver is a statement to be proved and not an
  assumption of the model.
* The package-level `registry` map is passed explicitly.
* Where a property speaks of what a call leaves unchanged, the call is run in a
  `ProgramState`: a heap of allocated `Error` objects addressed by pointers,
  and the registry of pointers.
-/

namespace Errors

/-! ## Data model -/

/-- ErrorCode is the code identifier of the error (`type ErrorCode uint32`).
No arithmetic is ever performed on a code, so it is kept as a natural number. -/
abbrev ErrorCode := Nat

def ErrorCodeNil : ErrorCode := 0
def ErrorCodeBadFormat : ErrorCode := 1
def ErrorRunCommandError : ErrorCode := 2
def ErrorCodeTimeout : ErrorCode := 3
def ErrorCodeUnimplemented : ErrorCode := 4
def ErrorCodeUnknown : ErrorCode := 111111

/-- A non-nil Go `error` value, as far as the `%v` verb can observe it.
`foreign text` is any error whose `%v` rendering is `text`; `withStack` and
`withMessage` are the two wrappers of `github.com/pkg/errors` used by this
package (the recorded call stack is not printed by `%v` and is left out). -/
inductive GoError where
  | foreign (text : String)
  | withStack (cause : GoError)
  | withMessage (cause : GoError) (msg : String)
  deriving DecidableEq, Repr

/-- The `%v` rendering of an error: `withStack` prints its cause,
`withMessage` prints `msg + ": " + cause`. -/
def GoError.render : GoError → String
  | .foreign text => text
  | .withStack cause => cause.render
  | .withMessage cause msg => msg ++ ": " ++ cause.render

/-- Modelled from the spec: the external stack-annotation capability
`errors.WithStack` of `github.com/pkg/errors` ("a no-op wrap if origin is
none"): nil stays nil, anything else is wrapped. -/
def WithStack : Option GoError → Option GoError
  | none => none
  | some err => some (.withStack err)

/-- Modelled from the spec: the external message-annotation capability
`errors.WithMessage` of `github.com/pkg/errors` ("annotate an error with an
extra message while preserving its cause chain"): nil stays nil. -/
def WithMessage (err : Option GoError) (message : String) : Option GoError :=
  match err with
  | none => none
  | some cause => some (.withMessage cause message)

/-- Error is the abstraction of an error (`type Error struct`). -/
structure Error where
  Status : Int
  Code : ErrorCode
  Message : String
  Origin : Option GoError
  Hint : String
  deriving DecidableEq, Repr

/-- A `*Error`: `none` is the nil pointer. -/
abbrev ErrorPtr := Option Error

deriving instance DecidableEq for Except

/-- The panic value of a read through a nil pointer. -/
def nilDereference : String :=
  "runtime error: invalid memory address or nil pointer dereference"

/-! ## Accessors -/

/-- GetCode returns the error code. -/
def GetCode (e : ErrorPtr) : ErrorCode :=
  match e with
  | none => ErrorCodeNil
  | some v => v.Code

/-- GetMessage returns the error message.  The `default` branch reads
`e.Message` without a nil check. -/
def GetMessage (e : ErrorPtr) : Except String String :=
  if GetCode e = ErrorCodeNil then .ok "ok"
  else if GetCode e = ErrorCodeUnknown then .ok "未知错误"
  else
    match e with
    | none => .error nilDereference
    | some v => .ok v.Message

/-- GetStatus return the http status error. -/
def GetStatus (e : ErrorPtr) : Int :=
  match e with
  | none => 0
  | some v => v.Status

/-- GetOrigin returns the original error. -/
def GetOrigin (e : ErrorPtr) : Option GoError :=
  match e with
  | none => none
  | some v => v.Origin

/-- GetHint returns the hint; on the nil receiver it goes through the message. -/
def GetHint (e : ErrorPtr) : Except String String :=
  match e with
  | none => GetMessage e
  | some v => .ok v.Hint

/-- The text of `fmt.Sprintf("%s[%v][%v]", message, status, code)`. -/
def renderPlain (message : String) (status : Int) (code : ErrorCode) : String :=
  message ++ "[" ++ toString status ++ "][" ++ toString code ++ "]"

/-- The text of `fmt.Sprintf("%s[%v][%v] (%v)", message, status, code, origin)`
for a non-nil `origin`. -/
def renderWithOrigin (message : String) (status : Int) (code : ErrorCode)
    (origin : GoError) : String :=
  message ++ "[" ++ toString status ++ "][" ++ toString code ++ "] ("
    ++ origin.render ++ ")"

/-- Error implements the standard error interface. -/
def Error.Error (e : ErrorPtr) : Except String String := do
  let status := GetStatus e
  let code := GetCode e
  let origin := GetOrigin e
  let message ← GetMessage e
  if code = ErrorCodeNil then
    .ok "ok"
  else
    match origin with
    | none => .ok (renderPlain message status code)
    | some o => .ok (renderWithOrigin message status code o)

/-- String is `e.Error()`. -/
def Error.String (e : ErrorPtr) : Except String String := Error.Error e

/-- IsNil returns true if this error is Nil. -/
def IsNil (e : ErrorPtr) : Bool := GetCode e == ErrorCodeNil

/-- IsNotNil return true if this error is not Nil. -/
def IsNotNil (e : ErrorPtr) : Bool := GetCode e != ErrorCodeNil

/-- Ok returns true if this error is Nil. -/
def Ok (e : ErrorPtr) : Bool := IsNil e

/-! ## Derivations -/

/-- Clone this error to get a new Error instance with attaching an origin error. -/
def CloneWithOriginError (e : ErrorPtr) (origin : Option GoError) :
    Except String ErrorPtr := do
  let status := GetStatus e
  let code := GetCode e
  let message ← GetMessage e
  let origin := WithStack origin
  let hint ← GetHint e
  .ok (some { Status := status, Code := code, Message := message,
              Origin := origin, Hint := hint })

/-- Clone this error and format it with `fmt.Sprintf`, which is the parameter
`sprintf`.  The `Hint` field is read as `e.Hint`, without a nil check. -/
def Format {α : Type} (sprintf : String → List α → String) (e : ErrorPtr)
    (a : List α) : Except String ErrorPtr := do
  let status := GetStatus e
  let code := GetCode e
  let format ← GetMessage e
  let message := sprintf format a
  let origin := WithStack (GetOrigin e)
  let hint ← (match e with
    | none => .error nilDereference
    | some v => .ok v.Hint : Except String String)
  .ok (some { Status := status, Code := code, Message := message,
              Origin := origin, Hint := hint })

/-- Clone this error to get a new Error instance with attaching a hint message. -/
def CloneWithHint (e : ErrorPtr) (hint : String) : Except String ErrorPtr := do
  let status := GetStatus e
  let code := GetCode e
  let message ← GetMessage e
  let origin := WithMessage (GetOrigin e) hint
  .ok (some { Status := status, Code := code, Message := message,
              Origin := origin, Hint := hint })

/-! ## Registry -/

/-- The internal errors registry, `map[ErrorCode]*Error`: a key is absent when
it maps to `none`; a stored pointer is represented by the struct it points to. -/
abbrev Registry := ErrorCode → Option Error

/-- The value of `make(map[ErrorCode]*Error)`. -/
def emptyRegistry : Registry := fun _ => none

/-- The assignment `registry[code] = e`. -/
def Registry.set (registry : Registry) (code : ErrorCode) (e : Error) : Registry :=
  fun k => if k = code then some e else registry k

/-- The panic value `fmt.Sprintf("conflicts error code: %v", code)`. -/
def conflictMessage (code : ErrorCode) : String :=
  "conflicts error code: " ++ toString code

/-- NewError returns a new Error and registers it onto the registry.  The
result is the outcome of the call (the template, or the panic value) paired
with the registry as the call leaves it. -/
def NewError (registry : Registry) (code : ErrorCode) (status : Int)
    (message : String) : Except String ErrorPtr × Registry :=
  match registry code with
  | some _ => (.error (conflictMessage code), registry)
  | none =>
    let e : Error := { Status := status, Code := code, Message := message,
                       Origin := none, Hint := "" }
    (.ok (some e), registry.set code e)

/-! ## Package-level variables (`errors.go`) -/

/-- The nil error: `Nil *Error = nil`. -/
def Nil : ErrorPtr := none

/-- The package-level variables other than `Nil`. -/
structure Builtins where
  Unknown : ErrorPtr
  BadFormat : ErrorPtr
  RunCommandError : ErrorPtr
  Timeout : ErrorPtr
  Unimplemented : ErrorPtr
  deriving DecidableEq, Repr

/-- Package initialisation: the five `NewError` calls of `errors.go`, in
declaration order, starting from the empty registry.  A panic stops the
initialisation with the registry as it is at that point. -/
def packageInit : Except String Builtins × Registry :=
  match NewError emptyRegistry ErrorCodeUnknown 500 "未知错误" with
  | (.error p, r) => (.error p, r)
  | (.ok unknown, r1) =>
  match NewError r1 ErrorCodeBadFormat 400 "格式错误" with
  | (.error p, r) => (.error p, r)
  | (.ok badFormat, r2) =>
  match NewError r2 ErrorRunCommandError 500 "执行命令异常" with
  | (.error p, r) => (.error p, r)
  | (.ok runCommandError, r3) =>
  match NewError r3 ErrorCodeTimeout 408 "超时" with
  | (.error p, r) => (.error p, r)
  | (.ok timeout, r4) =>
  match NewError r4 ErrorCodeUnimplemented 404 "未实现!" with
  | (.error p, r) => (.error p, r)
  | (.ok unimplemented, r5) =>
    (.ok { Unknown := unknown, BadFormat := badFormat,
           RunCommandError := runCommandError, Timeout := timeout,
           Unimplemented := unimplemented }, r5)

/-- The registries the program can hold: the empty map, and whatever a call of
`NewError` (returning or panicking) leaves behind. -/
inductive Reachable : Registry → Prop where
  | empty : Reachable emptyRegistry
  | step (registry : Registry) (code : ErrorCode) (status : Int) (message : String) :
      Reachable registry → Reachable (NewError registry code status message).2

/-- Every entry is stored under its own code. -/
def KeysAreCodes (registry : Registry) : Prop :=
  ∀ k e, registry k = some e → e.Code = k

/-! ## Formatting, serialisation and substring vocabulary -/

/-- Modelled from the spec: the "percent/placeholder-style substitution" of the
external `fmt.Sprintf`, on the fragment where it is pinned down here: integer
operands, plain text, `%%` (a literal percent sign) and `%d` (the next operand
in decimal), with exactly as many operands as `%d` verbs.  The result is
`none` for a format or operand list outside this fragment. -/
def sprintfFragment : List Char → List Int → Option (List Char)
  | [], [] => some []
  | [], _ :: _ => none
  | '%' :: '%' :: rest, a => (sprintfFragment rest a).map (fun out => '%' :: out)
  | '%' :: 'd' :: rest, x :: a =>
    (sprintfFragment rest a).map (fun out => (toString x).data ++ out)
  | '%' :: _, _ => none
  | c :: rest, a => (sprintfFragment rest a).map (fun out => c :: out)

/-- A formatting function behaves as `fmt.Sprintf` on the modelled fragment. -/
def AgreesWithFragment (sprintf : String → List Int → String) : Prop :=
  ∀ format a out, sprintfFragment format.data a = some out →
    sprintf format a = String.mk out

/-- A formatting function that is `sprintfFragment` on the fragment and returns
the format unchanged elsewhere. -/
def sprintfOrVerbatim (format : String) (a : List Int) : String :=
  match sprintfFragment format.data a with
  | some out => String.mk out
  | none => format

/-- The fields of `Error` with their `json` struct tags, in declaration order. -/
def jsonTags : List (String × String) :=
  [("Status", "-"), ("Code", "code"), ("Message", "message"),
   ("Origin", "origin"), ("Hint", "hint")]

/-- Modelled from the spec: the key selection of the external JSON encoder for
exported, tagged fields: a field tagged `-` is left out, any other field is
emitted under the name in its tag. -/
def jsonKeys (tags : List (String × String)) : List String :=
  (tags.filter (fun field => field.2 != "-")).map (fun field => field.2)

/-- The string `s` contains `sub` as a substring. -/
def Contains (s sub : String) : Prop :=
  ∃ before after : List Char, before ++ sub.data ++ after = s.data

instance (s sub : String) : Decidable (Contains s sub) :=
  inferInstanceAs (Decidable (sub.data <:+: s.data))

/-! ## Program state: allocated objects and the registry of pointers

The functions above compute with the value a `*Error` points to.  To state what
a call leaves unchanged, the same calls are run here in an explicit program
state, in which a `*Error` is an address, `&Error{...}` allocates a new
object, and the registry holds pointers. -/

/-- The address of an allocated `Error` object. -/
abbrev Addr := Nat

/-- A `*Error` as a pointer: `none` is nil, `some a` is the address `a`. -/
abbrev Ref := Option Addr

/-- The program state: the `Error` objects allocated so far (the object at
address `a` is `heap[a]`) and the package-level `registry`, a map from a code
to a pointer. -/
structure ProgramState where
  heap : List Error
  registry : ErrorCode → Option Addr

/-- The state at program start: nothing is allocated and `registry` is the
empty map. -/
def ProgramState.initial : ProgramState :=
  { heap := [], registry := fun _ => none }

/-- The pointer is nil or the address of an allocated object. -/
def ProgramState.Holds (s : ProgramState) (e : Ref) : Prop :=
  match e with
  | none => True
  | some a => a < s.heap.length

instance (s : ProgramState) (e : Ref) : Decidable (s.Holds e) := by
  unfold ProgramState.Holds
  cases e <;> infer_instance

/-- What a pointer points to in a state: nothing for nil, the object at the
address otherwise. -/
def ProgramState.deref (s : ProgramState) (e : Ref) : ErrorPtr :=
  match e with
  | none => none
  | some a => s.heap[a]?

/-- The composite literal `&Error{...}`: the new object is placed at the next
free address, which is returned; no other object is written. -/
def ProgramState.alloc (s : ProgramState) (v : Error) : Addr × ProgramState :=
  (s.heap.length, { heap := s.heap ++ [v], registry := s.registry })

/-- The registry read through its pointers: the struct registered under each
code. -/
def ProgramState.catalog (s : ProgramState) : Registry :=
  fun k => s.deref (s.registry k)

/-- The call `e.CloneWithOriginError(origin)` in a program state: the receiver
is read through its pointer and the returned `&Error{...}` is allocated; the
method body has no assignment.  A panic leaves the state as it is. -/
def ProgramState.CloneWithOriginError (s : ProgramState) (e : Ref)
    (origin : Option GoError) : Except String Ref × ProgramState :=
  match Errors.CloneWithOriginError (s.deref e) origin with
  | .error p => (.error p, s)
  | .ok none => (.ok none, s)
  | .ok (some v) => (.ok (some (s.alloc v).1), (s.alloc v).2)

/-- The call `e.Format(a...)` in a program state: the receiver is read through
its pointer and the returned `&Error{...}` is allocated; the method body has
no assignment.  A panic leaves the state as it is. -/
def ProgramState.Format {α : Type} (s : ProgramState)
    (sprintf : String → List α → String) (e : Ref) (a : List α) :
    Except String Ref × ProgramState :=
  match Errors.Format sprintf (s.deref e) a with
  | .error p => (.error p, s)
  | .ok none => (.ok none, s)
  | .ok (some v) => (.ok (some (s.alloc v).1), (s.alloc v).2)

/-- The call `e.CloneWithHint(hint)` in a program state: the receiver is read
through its pointer and the returned `&Error{...}` is allocated; the method
body has no assignment.  A panic leaves the state as it is. -/
def ProgramState.CloneWithHint (s : ProgramState) (e : Ref) (hint : String) :
    Except String Ref × ProgramState :=
  match Errors.CloneWithHint (s.deref e) hint with
  | .error p => (.error p, s)
  | .ok none => (.ok none, s)
  | .ok (some v) => (.ok (some (s.alloc v).1), (s.alloc v).2)

/-- The call `NewError(code, status, message)` in a program state: on a
conflict it panics before any write; otherwise the template is allocated and
its pointer is stored in `registry[code]` and returned. -/
def ProgramState.NewError (s : ProgramState) (code : ErrorCode) (status : Int)
    (message : String) : Except String Ref × ProgramState :=
  match s.registry code with
  | some _ => (.error (conflictMessage code), s)
  | none =>
    let e : Error := { Status := status, Code := code, Message := message,
                       Origin := none, Hint := "" }
    (.ok (some (s.alloc e).1),
      { heap := (s.alloc e).2.heap,
        registry := fun k => if k = code then some (s.alloc e).1 else s.registry k })

/-! ## Shared lemmas -/

theorem GetMessage_some (v : Error) :
    GetMessage (some v) =
      .ok (if v.Code = 0 then "ok" else if v.Code = 111111 then "未知错误"
           else v.Message) := by
  unfold GetMessage GetCode ErrorCodeNil ErrorCodeUnknown
  by_cases h0 : v.Code = 0
  · simp [h0]
  · by_cases h1 : v.Code = 111111
    · simp [h1]
    · simp [h0, h1]

theorem GetMessage_none : GetMessage none = .ok "ok" := by
  simp [GetMessage, GetCode]

theorem renderWithOrigin_eq (message : String) (status : Int) (code : ErrorCode)
    (origin : GoError) :
    renderWithOrigin message status code origin =
      message ++ "[" ++ toString status ++ "][" ++ toString code ++ "]"
        ++ " (" ++ origin.render ++ ")" := by
  have h : "] (" = "]" ++ " (" := by decide
  simp only [renderWithOrigin, h, String.append_assoc]

/-! ## Verified properties -/

/-- C1: on the nil receiver every accessor returns without a panic and gives
the sentinel values: code 0, status 0, message "ok", no origin, hint "ok",
`IsNil()` true and `Error()` equal to "ok". -/
theorem nil_receiver_accessors :
    GetCode Nil = 0 ∧ GetStatus Nil = 0 ∧ GetMessage Nil = .ok "ok" ∧
      GetOrigin Nil = none ∧ GetHint Nil = .ok "ok" ∧ IsNil Nil = true ∧
      Error.Error Nil = .ok "ok" := by
  refine ⟨rfl, rfl, ?_, rfl, ?_, rfl, ?_⟩
  · exact GetMessage_none
  · exact GetMessage_none
  · simp [Error.Error, Nil, GetMessage_none, GetCode, bind, Except.bind]

/-- C2: for every origin, `Nil.CloneWithOriginError(origin)` returns a non-nil
pointer to a new value whose code is that of `Nil` (0): it satisfies `IsNil()`,
renders as "ok", has status 0, message "ok" and hint "ok", and its origin is
nil exactly when the given origin is nil. -/
theorem clone_nil_with_origin (origin : Option GoError) :
    ∃ r : Error, CloneWithOriginError Nil origin = .ok (some r) ∧
      GetCode (some r) = GetCode Nil ∧ GetCode (some r) = 0 ∧
      IsNil (some r) = true ∧ Error.Error (some r) = .ok "ok" ∧
      GetStatus (some r) = 0 ∧ GetMessage (some r) = .ok "ok" ∧
      GetHint (some r) = .ok "ok" ∧
      (GetOrigin (some r) = none ↔ origin = none) := by
  refine ⟨{ Status := 0, Code := 0, Message := "ok", Origin := WithStack origin,
            Hint := "ok" }, ?_, rfl, rfl, rfl, ?_, rfl, ?_, rfl, ?_⟩
  · simp [CloneWithOriginError, Nil, GetHint, GetMessage_none, GetCode, GetStatus,
      ErrorCodeNil, bind, Except.bind]
  · simp [Error.Error, GetMessage_some, GetCode, ErrorCodeNil, bind, Except.bind]
  · simp [GetMessage_some]
  · cases origin <;> simp [GetOrigin, WithStack]

/-- C3: `Format` on the nil receiver panics with a nil-pointer dereference for
every formatting function and every argument list (it reads `e.Hint` directly),
whereas `CloneWithOriginError` and `CloneWithHint` on the nil receiver return a
value with code 0 and status 0. -/
theorem nil_Format_panics {α : Type} (sprintf : String → List α → String)
    (a : List α) (origin : Option GoError) (hint : String) :
    Format sprintf Nil a = .error nilDereference ∧
      (∃ r, CloneWithOriginError Nil origin = .ok (some r) ∧ r.Code = 0 ∧ r.Status = 0) ∧
      (∃ r, CloneWithHint Nil hint = .ok (some r) ∧ r.Code = 0 ∧ r.Status = 0) := by
  refine ⟨?_, ?_, ?_⟩
  · simp [Format, Nil, GetMessage_none, bind, Except.bind]
  · simp [CloneWithOriginError, Nil, GetHint, GetMessage_none, GetCode, GetStatus,
      ErrorCodeNil, bind, Except.bind]
  · simp [CloneWithHint, Nil, GetMessage_none, GetCode, GetStatus,
      ErrorCodeNil, bind, Except.bind]

/-- C4: for every receiver, `Error()` is "ok" when the code is 0, whatever the
other fields; otherwise it is message, "[", status, "][", code, "]" with the
message of `GetMessage()`, followed by " (", the rendering of the origin, ")"
when an origin is present.  `String()` returns the same as `Error()`. -/
theorem Error_rendering (e : ErrorPtr) :
    (GetCode e = 0 → Error.Error e = .ok "ok") ∧
      (GetCode e ≠ 0 → ∃ m, GetMessage e = .ok m ∧
        (GetOrigin e = none → Error.Error e =
          .ok (m ++ "[" ++ toString (GetStatus e) ++ "][" ++ toString (GetCode e) ++ "]")) ∧
        (∀ o, GetOrigin e = some o → Error.Error e =
          .ok (m ++ "[" ++ toString (GetStatus e) ++ "][" ++ toString (GetCode e) ++ "]"
                ++ " (" ++ o.render ++ ")"))) ∧
      Error.String e = Error.Error e := by
  refine ⟨?_, ?_, rfl⟩
  · intro h
    cases e with
    | none => simp [Error.Error, GetMessage_none, GetCode, bind, Except.bind]
    | some v =>
      simp [Error.Error, GetMessage_some, h, ErrorCodeNil, bind, Except.bind]
  · intro h
    cases e with
    | none => exact absurd rfl h
    | some v =>
      refine ⟨_, GetMessage_some v, ?_, ?_⟩
      · intro ho
        simp only [Error.Error, GetMessage_some, bind, Except.bind, ErrorCodeNil, if_neg h, ho]
        rfl
      · intro o ho
        simp only [Error.Error, GetMessage_some, bind, Except.bind, ErrorCodeNil, if_neg h, ho,
          renderWithOrigin_eq]

/-- C5 (as stated, refuted): a template registered under code 0 renders as
"ok", and one registered under code 111111 with another message renders with
the fixed unknown-error message; neither is message[status][code]. -/
theorem template_rendering_counterexample :
    emptyRegistry 0 = none ∧ emptyRegistry 111111 = none ∧
      ((NewError emptyRegistry 0 500 "boom").1 >>= Error.Error) = .ok "ok" ∧
      ((NewError emptyRegistry 0 500 "boom").1 >>= Error.Error) ≠
        .ok ("boom" ++ "[" ++ toString (500 : Int) ++ "][" ++ toString (0 : Nat) ++ "]") ∧
      ((NewError emptyRegistry 111111 500 "boom").1 >>= Error.Error) =
        .ok "未知错误[500][111111]" ∧
      ((NewError emptyRegistry 111111 500 "boom").1 >>= Error.Error) ≠
        .ok ("boom" ++ "[" ++ toString (500 : Int) ++ "][" ++ toString (111111 : Nat) ++ "]") := by
  refine ⟨rfl, rfl, ?_, ?_, ?_, ?_⟩ <;> decide

/-- C5 (amended): for a code other than 0 that is not yet registered, and a
message that is the fixed unknown-error message in case the code is 111111,
the template `T` returned by `NewError` renders as message[status][code], and
for every cause `X` the clone `T.CloneWithOriginError(X)` renders as the same
string followed by " (", the rendering of `X`, ")". -/
theorem template_rendering (registry : Registry) (code : ErrorCode) (status : Int)
    (message : String) (hfree : registry code = none) (hnil : code ≠ ErrorCodeNil)
    (hunknown : code = ErrorCodeUnknown → message = "未知错误") :
    ∃ T, (NewError registry code status message).1 = .ok T ∧
      Error.Error T =
        .ok (message ++ "[" ++ toString status ++ "][" ++ toString code ++ "]") ∧
      ∀ X : GoError, ∃ c, CloneWithOriginError T (some X) = .ok c ∧
        Error.Error c =
          .ok (message ++ "[" ++ toString status ++ "][" ++ toString code ++ "]"
                ++ " (" ++ X.render ++ ")") := by
  have hmsg : (if code = 111111 then "未知错误" else message) = message := by
    by_cases h : code = 111111
    · rw [if_pos h, hunknown h]
    · rw [if_neg h]
  have h0 : ¬ code = 0 := hnil
  refine ⟨some { Status := status, Code := code, Message := message, Origin := none,
                 Hint := "" }, ?_, ?_, ?_⟩
  · simp [NewError, hfree]
  · simp only [Error.Error, GetMessage_some, bind, Except.bind, ErrorCodeNil, GetCode,
      GetStatus, GetOrigin, if_neg h0, hmsg]
    rfl
  · intro X
    refine ⟨some { Status := status, Code := code, Message := message,
                   Origin := some (.withStack X), Hint := "" }, ?_, ?_⟩
    · simp only [CloneWithOriginError, GetMessage_some, GetHint, bind, Except.bind,
        GetCode, GetStatus, WithStack, if_neg h0, hmsg]
    · simp only [Error.Error, GetMessage_some, bind, Except.bind, ErrorCodeNil, GetCode,
        GetStatus, GetOrigin, if_neg h0, hmsg, renderWithOrigin_eq, GoError.render]

/-- Witness for C5 (amended): the built-in BadFormat registration on the empty
registry. -/
theorem template_rendering_witness :
    (emptyRegistry 1 = none ∧ (1 : ErrorCode) ≠ ErrorCodeNil ∧
      ((1 : ErrorCode) = ErrorCodeUnknown → "格式错误" = "未知错误")) ∧
    ∃ T, (NewError emptyRegistry 1 400 "格式错误").1 = .ok T ∧
      Error.Error T =
        .ok ("格式错误" ++ "[" ++ toString (400 : Int) ++ "][" ++ toString (1 : ErrorCode) ++ "]") ∧
      ∀ X : GoError, ∃ c, CloneWithOriginError T (some X) = .ok c ∧
        Error.Error c =
          .ok ("格式错误" ++ "[" ++ toString (400 : Int) ++ "][" ++ toString (1 : ErrorCode) ++ "]"
                ++ " (" ++ X.render ++ ")") :=
  ⟨⟨rfl, by decide, by decide⟩,
    template_rendering emptyRegistry 1 400 "格式错误" rfl (by decide) (by decide)⟩

/-- C6: `NewError` panics exactly when the registry already has an entry under
the code; the panic value is the diagnostic naming the code and the registry
is left as it was.  A second registration of a code always panics, whatever
the statuses and messages. -/
theorem NewError_panics_iff_registered (registry : Registry) (code : ErrorCode)
    (status : Int) (message : String) :
    ((∃ p, (NewError registry code status message).1 = .error p) ↔
        registry code ≠ none) ∧
      (∀ p, (NewError registry code status message).1 = .error p →
        p = "conflicts error code: " ++ toString code ∧
        (NewError registry code status message).2 = registry) ∧
      (∀ (status2 : Int) (message2 : String),
        (NewError (NewError registry code status message).2 code status2 message2).1 =
          .error ("conflicts error code: " ++ toString code)) := by
  unfold NewError
  cases h : registry code with
  | none =>
    refine ⟨?_, ?_, ?_⟩
    · simp
    · intro p hp
      simp at hp
    · intro status2 message2
      simp [Registry.set, conflictMessage]
  | some t =>
    refine ⟨?_, ?_, ?_⟩
    · simp
    · intro p hp
      simp only [Except.error.injEq] at hp
      exact ⟨by rw [← hp]; rfl, rfl⟩
    · intro status2 message2
      simp [h, conflictMessage]

/-- C7: when the code is not yet registered, `NewError` returns the template
{status, code, message, no origin, empty hint}; the new registry maps the code
to that template and every other code to what it mapped to before.  Two
distinct unregistered codes registered one after the other, in either order,
are both retrievable under their own codes. -/
theorem NewError_registers (registry : Registry) (code : ErrorCode) (status : Int)
    (message : String) (hfree : registry code = none) :
    (NewError registry code status message).1 =
        .ok (some { Status := status, Code := code, Message := message,
                    Origin := none, Hint := "" }) ∧
      (NewError registry code status message).2 code =
        some { Status := status, Code := code, Message := message,
               Origin := none, Hint := "" } ∧
      (∀ k, k ≠ code → (NewError registry code status message).2 k = registry k) ∧
      (∀ (code2 : ErrorCode) (status2 : Int) (message2 : String),
        code2 ≠ code → registry code2 = none →
        (NewError (NewError registry code status message).2 code2 status2 message2).1 =
            .ok (some { Status := status2, Code := code2, Message := message2,
                        Origin := none, Hint := "" }) ∧
          (NewError (NewError registry code status message).2 code2 status2 message2).2 code =
            some { Status := status, Code := code, Message := message,
                   Origin := none, Hint := "" } ∧
          (NewError (NewError registry code status message).2 code2 status2 message2).2 code2 =
            some { Status := status2, Code := code2, Message := message2,
                   Origin := none, Hint := "" } ∧
          (NewError (NewError registry code2 status2 message2).2 code status message).2 code =
            some { Status := status, Code := code, Message := message,
                   Origin := none, Hint := "" } ∧
          (NewError (NewError registry code2 status2 message2).2 code status message).2 code2 =
            some { Status := status2, Code := code2, Message := message2,
                   Origin := none, Hint := "" }) := by
  refine ⟨?_, ?_, ?_, ?_⟩
  · simp [NewError, hfree]
  · simp [NewError, hfree, Registry.set]
  · intro k hk
    simp [NewError, hfree, Registry.set, hk]
  · intro code2 status2 message2 hne hfree2
    have hne2 : code ≠ code2 := fun h => hne h.symm
    simp [NewError, hfree, hfree2, Registry.set, hne, hne2]

/-- Witness for C7: registering code 7 and then code 9 on the empty registry. -/
theorem NewError_registers_witness :
    emptyRegistry 7 = none ∧
      (NewError emptyRegistry 7 418 "teapot").1 =
        .ok (some { Status := 418, Code := 7, Message := "teapot",
                    Origin := none, Hint := "" }) ∧
      (NewError (NewError emptyRegistry 7 418 "teapot").2 9 500 "other").2 7 =
        some { Status := 418, Code := 7, Message := "teapot", Origin := none, Hint := "" } :=
  ⟨rfl, (NewError_registers emptyRegistry 7 418 "teapot" rfl).1,
    ((NewError_registers emptyRegistry 7 418 "teapot" rfl).2.2.2 9 500 "other"
      (by decide) rfl).2.1⟩

theorem NewError_preserves_keys (registry : Registry) (code : ErrorCode) (status : Int)
    (message : String) (h : KeysAreCodes registry) :
    KeysAreCodes (NewError registry code status message).2 := by
  unfold NewError
  cases hc : registry code with
  | some t => exact h
  | none =>
    intro k e hk
    simp only [Registry.set] at hk
    by_cases hkc : k = code
    · rw [if_pos hkc] at hk
      cases hk
      exact hkc.symm
    · rw [if_neg hkc] at hk
      exact h k e hk

theorem Reachable_keys (registry : Registry) (hr : Reachable registry) :
    KeysAreCodes registry := by
  induction hr with
  | empty =>
    intro k e hk
    simp [emptyRegistry] at hk
  | step registry code status message _ ih =>
    exact NewError_preserves_keys registry code status message ih

/-- C8: in every registry reachable from the empty one by `NewError` calls, the
entry stored under a key `k` has `Code` equal to `k`, hence entries under
different keys carry different codes; and a `NewError` call that returns
preserves this invariant. -/
theorem registry_keys_are_codes :
    (∀ registry, Reachable registry →
      (∀ k e, registry k = some e → e.Code = k) ∧
      (∀ k1 k2 e1 e2, registry k1 = some e1 → registry k2 = some e2 →
        e1.Code = e2.Code → k1 = k2)) ∧
      (∀ (registry : Registry) (code : ErrorCode) (status : Int) (message : String) (T : ErrorPtr),
        (∀ k e, registry k = some e → e.Code = k) →
        (NewError registry code status message).1 = .ok T →
        ∀ k e, (NewError registry code status message).2 k = some e → e.Code = k) := by
  refine ⟨?_, ?_⟩
  · intro registry hr
    have hk := Reachable_keys registry hr
    refine ⟨hk, ?_⟩
    intro k1 k2 e1 e2 h1 h2 he
    rw [← hk k1 e1 h1, ← hk k2 e2 h2]
    exact he
  · intro registry code status message _ hk _
    exact NewError_preserves_keys registry code status message hk

/-- C9: package initialisation succeeds: the five registrations Unknown
(111111, 500), BadFormat (1, 400), RunCommandError (2, 500), Timeout (3, 408),
Unimplemented (4, 404), made in this order from the empty registry, all return;
the six built-in codes are pairwise distinct, `Nil` is the nil pointer and
code 0 is not registered, and the final registry holds exactly the five
templates. -/
theorem packageInit_succeeds :
    packageInit.1 =
        .ok { Unknown := some { Status := 500, Code := 111111, Message := "未知错误",
                                Origin := none, Hint := "" },
              BadFormat := some { Status := 400, Code := 1, Message := "格式错误",
                                  Origin := none, Hint := "" },
              RunCommandError := some { Status := 500, Code := 2, Message := "执行命令异常",
                                        Origin := none, Hint := "" },
              Timeout := some { Status := 408, Code := 3, Message := "超时",
                                Origin := none, Hint := "" },
              Unimplemented := some { Status := 404, Code := 4, Message := "未实现!",
                                      Origin := none, Hint := "" } } ∧
      [ErrorCodeNil, ErrorCodeUnknown, ErrorCodeBadFormat, ErrorRunCommandError,
        ErrorCodeTimeout, ErrorCodeUnimplemented].Nodup ∧
      Nil = none ∧ packageInit.2 ErrorCodeNil = none ∧
      (∀ k, packageInit.2 k =
        if k = 111111 then
          some { Status := 500, Code := 111111, Message := "未知错误", Origin := none, Hint := "" }
        else if k = 1 then
          some { Status := 400, Code := 1, Message := "格式错误", Origin := none, Hint := "" }
        else if k = 2 then
          some { Status := 500, Code := 2, Message := "执行命令异常", Origin := none, Hint := "" }
        else if k = 3 then
          some { Status := 408, Code := 3, Message := "超时", Origin := none, Hint := "" }
        else if k = 4 then
          some { Status := 404, Code := 4, Message := "未实现!", Origin := none, Hint := "" }
        else none) := by
  refine ⟨by decide, by decide, rfl, rfl, ?_⟩
  intro k
  have h : packageInit.2 =
      ((((emptyRegistry.set 111111
            { Status := 500, Code := 111111, Message := "未知错误", Origin := none, Hint := "" }).set
          1 { Status := 400, Code := 1, Message := "格式错误", Origin := none, Hint := "" }).set
          2 { Status := 500, Code := 2, Message := "执行命令异常", Origin := none, Hint := "" }).set
          3 { Status := 408, Code := 3, Message := "超时", Origin := none, Hint := "" }).set
          4 { Status := 404, Code := 4, Message := "未实现!", Origin := none, Hint := "" } := rfl
  rw [h]
  simp only [Registry.set, emptyRegistry]
  split_ifs <;> first | rfl | simp_all

/-- C10: `GetMessage()` looks at the code first: "ok" when the code is 0 (also
for a present value with another stored message), the fixed unknown-error
string when the code is 111111, and the stored message otherwise; it never
panics. -/
theorem GetMessage_by_code (e : ErrorPtr) :
    (GetCode e = 0 → GetMessage e = .ok "ok") ∧
      (GetCode e = 111111 → GetMessage e = .ok "未知错误") ∧
      (GetCode e ≠ 0 → GetCode e ≠ 111111 →
        ∃ v, e = some v ∧ GetMessage e = .ok v.Message) := by
  cases e with
  | none =>
    refine ⟨fun _ => GetMessage_none, ?_, ?_⟩
    · intro h
      simp [GetCode, ErrorCodeNil] at h
    · intro h
      exact absurd rfl h
  | some v =>
    refine ⟨?_, ?_, ?_⟩
    · intro h
      have h0 : v.Code = 0 := h
      simp [GetMessage_some, h0]
    · intro h
      have h1 : v.Code = 111111 := h
      simp [GetMessage_some, h1]
    · intro h0 h1
      have h0v : ¬ v.Code = 0 := h0
      have h1v : ¬ v.Code = 111111 := h1
      exact ⟨v, rfl, by simp [GetMessage_some, h0v, h1v]⟩

/-! ## Closed forms of the derivations -/

theorem CloneWithOriginError_some (v : Error) (origin : Option GoError) :
    CloneWithOriginError (some v) origin =
      .ok (some { Status := v.Status, Code := v.Code,
                  Message := if v.Code = 0 then "ok"
                             else if v.Code = 111111 then "未知错误" else v.Message,
                  Origin := WithStack origin, Hint := v.Hint }) := by
  simp only [CloneWithOriginError, GetMessage_some, GetHint, GetStatus, GetCode, bind,
    Except.bind]

theorem CloneWithOriginError_none (origin : Option GoError) :
    CloneWithOriginError none origin =
      .ok (some { Status := 0, Code := 0, Message := "ok", Origin := WithStack origin,
                  Hint := "ok" }) := by
  simp only [CloneWithOriginError, GetMessage_none, GetHint, GetStatus, GetCode, bind,
    Except.bind, ErrorCodeNil]

theorem CloneWithHint_some (v : Error) (hint : String) :
    CloneWithHint (some v) hint =
      .ok (some { Status := v.Status, Code := v.Code,
                  Message := if v.Code = 0 then "ok"
                             else if v.Code = 111111 then "未知错误" else v.Message,
                  Origin := WithMessage v.Origin hint, Hint := hint }) := by
  simp only [CloneWithHint, GetMessage_some, GetStatus, GetCode, GetOrigin, bind,
    Except.bind]

theorem CloneWithHint_none (hint : String) :
    CloneWithHint none hint =
      .ok (some { Status := 0, Code := 0, Message := "ok", Origin := none,
                  Hint := hint }) := by
  simp only [CloneWithHint, GetMessage_none, GetStatus, GetCode, GetOrigin, bind,
    Except.bind, ErrorCodeNil, WithMessage]

theorem Format_some {α : Type} (sprintf : String → List α → String) (v : Error)
    (a : List α) :
    Format sprintf (some v) a =
      .ok (some { Status := v.Status, Code := v.Code,
                  Message := sprintf (if v.Code = 0 then "ok"
                                      else if v.Code = 111111 then "未知错误"
                                      else v.Message) a,
                  Origin := WithStack v.Origin, Hint := v.Hint }) := by
  simp only [Format, GetMessage_some, GetStatus, GetCode, GetOrigin, bind, Except.bind]

theorem message_of_plain_code (v : Error) (h0 : v.Code ≠ 0) (h1 : v.Code ≠ 111111) :
    (if v.Code = 0 then "ok" else if v.Code = 111111 then "未知错误" else v.Message) =
      v.Message := by
  rw [if_neg h0, if_neg h1]

theorem WithStack_render (origin : Option GoError) (X : GoError) (h : origin = some X) :
    ∃ w, WithStack origin = some w ∧ w.render = X.render := by
  subst h
  exact ⟨.withStack X, rfl, rfl⟩

/-! ## Allocation leaves the allocated objects as they are -/

theorem deref_alloc_new (s : ProgramState) (v : Error) :
    (s.alloc v).2.deref (some (s.alloc v).1) = some v := by
  simp [ProgramState.alloc, ProgramState.deref]

theorem deref_alloc_of_holds (s : ProgramState) (v : Error) (p : Ref)
    (h : s.Holds p) : (s.alloc v).2.deref p = s.deref p := by
  cases p with
  | none => rfl
  | some a =>
    have ha : a < s.heap.length := h
    simp [ProgramState.alloc, ProgramState.deref, List.getElem?_append_left ha]

theorem deref_next_free (s : ProgramState) : s.deref (some s.heap.length) = none := by
  simp [ProgramState.deref]

theorem holds_of_deref (s : ProgramState) (e : Addr) (v : Error)
    (h : s.deref (some e) = some v) : s.Holds (some e) := by
  by_contra hn
  have hle : s.heap.length ≤ e := Nat.le_of_not_lt hn
  have hnone : s.heap[e]? = none := List.getElem?_eq_none hle
  have h2 : s.heap[e]? = some v := h
  rw [hnone] at h2
  cases h2

theorem catalog_alloc (s : ProgramState) (v : Error)
    (hreg : ∀ k, s.Holds (s.registry k)) : (s.alloc v).2.catalog = s.catalog := by
  funext k
  exact deref_alloc_of_holds s v (s.registry k) (hreg k)

theorem CloneWithOriginError_fields (v : Error) (origin : Option GoError) :
    ∃ r : Error, CloneWithOriginError (some v) origin = .ok (some r) ∧
      r.Status = v.Status ∧ r.Code = v.Code ∧ r.Hint = v.Hint ∧
      GetMessage (some v) = .ok r.Message ∧
      (v.Code ≠ 0 → v.Code ≠ 111111 → r.Message = v.Message) ∧
      (origin = none → r.Origin = none) ∧
      (∀ X, origin = some X →
        r.Origin = some (.withStack X) ∧ (GoError.withStack X).render = X.render) := by
  refine ⟨_, CloneWithOriginError_some v origin, rfl, rfl, rfl, GetMessage_some v, ?_, ?_, ?_⟩
  · intro h0 h1
    exact message_of_plain_code v h0 h1
  · intro h
    subst h
    rfl
  · intro X h
    subst h
    exact ⟨rfl, rfl⟩

theorem catalog_none_iff (s : ProgramState) (code : ErrorCode)
    (hreg : ∀ k, s.Holds (s.registry k)) :
    s.catalog code = none ↔ s.registry code = none := by
  constructor
  · intro h
    cases hq : s.registry code with
    | none => rfl
    | some a =>
      have ha : a < s.heap.length := by
        have := hreg code
        rw [hq] at this
        exact this
      have hsome : s.heap[a]? = some s.heap[a] := List.getElem?_eq_getElem ha
      have hcat : s.heap[a]? = none := by
        have h2 : s.deref (s.registry code) = none := h
        rw [hq] at h2
        exact h2
      rw [hsome] at hcat
      cases hcat
  · intro h
    show s.deref (s.registry code) = none
    rw [h]
    rfl

/-- The registration in a program state, read through the pointers, is the
registration on the registry of structs. -/
theorem NewError_refines (s : ProgramState) (code : ErrorCode) (status : Int)
    (message : String) (hreg : ∀ k, s.Holds (s.registry k)) :
    (s.NewError code status message).2.catalog =
        (NewError s.catalog code status message).2 ∧
      (s.NewError code status message).1.map
          (fun q => (s.NewError code status message).2.deref q) =
        (NewError s.catalog code status message).1 := by
  cases hq : s.registry code with
  | some a =>
    have hne : s.catalog code ≠ none := by
      rw [Ne, catalog_none_iff s code hreg, hq]
      simp
    obtain ⟨t, ht⟩ := Option.ne_none_iff_exists'.mp hne
    simp only [ProgramState.NewError, NewError, hq, ht]
    exact ⟨trivial, rfl⟩
  | none =>
    have hnone : s.catalog code = none := (catalog_none_iff s code hreg).2 hq
    simp only [ProgramState.NewError, NewError, hq, hnone]
    refine ⟨?_, ?_⟩
    · funext k
      simp only [ProgramState.catalog, Registry.set]
      by_cases hk : k = code
      · simp only [if_pos hk]
        exact deref_alloc_new s _
      · simp only [if_neg hk]
        exact deref_alloc_of_holds s _ (s.registry k) (hreg k)
    · simp only [Except.map]
      exact congrArg Except.ok (deref_alloc_new s _)

theorem run_Format {α : Type} (s : ProgramState) (sprintf : String → List α → String)
    (e : Ref) (a : List α) (r : Error)
    (hr : Format sprintf (s.deref e) a = .ok (some r)) :
    s.Format sprintf e a = (.ok (some s.heap.length), (s.alloc r).2) := by
  simp only [ProgramState.Format, hr]
  rfl

theorem run_CloneWithHint (s : ProgramState) (e : Ref) (hint : String) (r : Error)
    (hr : CloneWithHint (s.deref e) hint = .ok (some r)) :
    s.CloneWithHint e hint = (.ok (some s.heap.length), (s.alloc r).2) := by
  simp only [ProgramState.CloneWithHint, hr]
  rfl

theorem Format_fields {α : Type} (sprintf : String → List α → String) (v : Error)
    (a : List α) :
    ∃ (m : String) (r : Error), GetMessage (some v) = .ok m ∧
      Format sprintf (some v) a = .ok (some r) ∧
      r.Code = v.Code ∧ r.Status = v.Status ∧ r.Hint = v.Hint ∧
      r.Message = sprintf m a ∧
      (v.Code ≠ 0 → v.Code ≠ 111111 → r.Message = sprintf v.Message a) := by
  refine ⟨_, _, GetMessage_some v, Format_some sprintf v a, rfl, rfl, rfl, rfl, ?_⟩
  intro h0 h1
  simp only [message_of_plain_code v h0 h1]

theorem CloneWithHint_accessors (x : ErrorPtr) (hint : String) :
    ∃ r : Error, CloneWithHint x hint = .ok (some r) ∧
      GetHint (some r) = .ok hint ∧ GetCode (some r) = GetCode x ∧
      GetStatus (some r) = GetStatus x ∧ GetMessage (some r) = GetMessage x ∧
      ∃ own, GetHint x = .ok own := by
  cases x with
  | none =>
    refine ⟨_, CloneWithHint_none hint, rfl, rfl, rfl, ?_, "ok", GetMessage_none⟩
    simp [GetMessage_some, GetMessage_none]
  | some v =>
    refine ⟨_, CloneWithHint_some v hint, rfl, rfl, rfl, ?_, v.Hint, rfl⟩
    simp only [GetMessage_some]
    by_cases h0 : v.Code = 0
    · simp [h0]
    · by_cases h1 : v.Code = 111111
      · simp [h1]
      · simp [h0, h1]

/-! ## Verified properties of the derivations -/

/-- C11 (as stated, refuted): cloning a present value that carries the Unknown
code 111111 and the stored message "boom" gives a value whose `Message` field
is the fixed unknown-error string, not the receiver's `Message` field. -/
theorem CloneWithOriginError_copies_counterexample :
    ∃ r : Error,
      CloneWithOriginError
          (some { Status := 500, Code := 111111, Message := "boom", Origin := none,
                  Hint := "" }) none = .ok (some r) ∧
        r.Message = "未知错误" ∧ r.Message ≠ "boom" :=
  ⟨{ Status := 500, Code := 111111, Message := "未知错误", Origin := none, Hint := "" },
    by decide, rfl, by decide⟩

/-- C11 (amended): for a receiver `e` that points to an object `v` in a program
state and any origin, `e.CloneWithOriginError(origin)` returns a pointer to a
newly allocated object whose `Status`, `Code` and `Hint` fields are the
receiver's, whose `Message` field is the receiver's `GetMessage()` (the
receiver's `Message` field when the code is neither 0 nor 111111), and whose
`Origin` is nil when the given origin is nil and otherwise the stack wrapper
of the given origin, which renders as the given origin does.  After the call
`e` still points to `v`, every object allocated before is unchanged, and the
registry is unchanged. -/
theorem CloneWithOriginError_copies (s : ProgramState) (e : Addr) (v : Error)
    (origin : Option GoError) (hv : s.deref (some e) = some v) :
    ∃ (r : Error) (q : Addr) (s' : ProgramState),
      s.CloneWithOriginError (some e) origin = (.ok (some q), s') ∧
      s'.deref (some q) = some r ∧
      CloneWithOriginError (some v) origin = .ok (some r) ∧
      r.Status = v.Status ∧ r.Code = v.Code ∧ r.Hint = v.Hint ∧
      GetMessage (some v) = .ok r.Message ∧
      (v.Code ≠ 0 → v.Code ≠ 111111 → r.Message = v.Message) ∧
      (origin = none → r.Origin = none) ∧
      (∀ X, origin = some X →
        r.Origin = some (.withStack X) ∧ (GoError.withStack X).render = X.render) ∧
      q ≠ e ∧ s.deref (some q) = none ∧
      s'.deref (some e) = some v ∧
      (∀ p, s.Holds p → s'.deref p = s.deref p) ∧
      s'.registry = s.registry := by
  have hholds : s.Holds (some e) := holds_of_deref s e v hv
  have he : e < s.heap.length := hholds
  obtain ⟨r, hr, hstatus, hcode, hhint, hmsg, hplain, hnil, hwrap⟩ :=
    CloneWithOriginError_fields v origin
  refine ⟨r, s.heap.length, (s.alloc r).2, ?_, deref_alloc_new s r, hr, hstatus, hcode,
    hhint, hmsg, hplain, hnil, hwrap, Nat.ne_of_gt he, deref_next_free s, ?_, ?_, rfl⟩
  · simp only [ProgramState.CloneWithOriginError, hv, hr]
    rfl
  · rw [deref_alloc_of_holds s r (some e) hholds, hv]
  · intro p hp
    exact deref_alloc_of_holds s r p hp

/-- Witness for C11 (amended): the BadFormat template, registered in the
initial state, cloned with the cause "disk full". -/
theorem CloneWithOriginError_copies_witness :
    (ProgramState.initial.NewError 1 400 "格式错误").2.deref (some 0) =
        some { Status := 400, Code := 1, Message := "格式错误", Origin := none,
               Hint := "" } ∧
    ∃ (r : Error) (q : Addr) (s' : ProgramState),
      (ProgramState.initial.NewError 1 400 "格式错误").2.CloneWithOriginError (some 0)
          (some (.foreign "disk full")) = (.ok (some q), s') ∧
      s'.deref (some q) = some r ∧
      CloneWithOriginError
          (some { Status := 400, Code := 1, Message := "格式错误", Origin := none,
                  Hint := "" }) (some (.foreign "disk full")) = .ok (some r) ∧
      r.Status = 400 ∧ r.Code = 1 ∧ r.Hint = "" ∧
      GetMessage (some { Status := 400, Code := 1, Message := "格式错误", Origin := none,
                         Hint := "" }) = .ok r.Message ∧
      ((1 : ErrorCode) ≠ 0 → (1 : ErrorCode) ≠ 111111 → r.Message = "格式错误") ∧
      (some (GoError.foreign "disk full") = none → r.Origin = none) ∧
      (∀ X, some (GoError.foreign "disk full") = some X →
        r.Origin = some (.withStack X) ∧ (GoError.withStack X).render = X.render) ∧
      q ≠ 0 ∧
      (ProgramState.initial.NewError 1 400 "格式错误").2.deref (some q) = none ∧
      s'.deref (some 0) =
        some { Status := 400, Code := 1, Message := "格式错误", Origin := none,
               Hint := "" } ∧
      (∀ p, (ProgramState.initial.NewError 1 400 "格式错误").2.Holds p →
        s'.deref p = (ProgramState.initial.NewError 1 400 "格式错误").2.deref p) ∧
      s'.registry = (ProgramState.initial.NewError 1 400 "格式错误").2.registry :=
  ⟨by decide,
    CloneWithOriginError_copies (ProgramState.initial.NewError 1 400 "格式错误").2 0
      { Status := 400, Code := 1, Message := "格式错误", Origin := none, Hint := "" }
      (some (.foreign "disk full")) (by decide)⟩

/-- C12: for a receiver `e` that points to an object `v` in a program state and
any argument list, `e.Format(args...)` returns a pointer to a newly allocated
object with the receiver's `Code`, `Status` and `Hint` and with `Message`
equal to the formatting of the receiver's message (`GetMessage()`, which is
the `Message` field when the code is neither 0 nor 111111) with the arguments.
After the call `e` still points to `v`, so its `Message` and every other field
are unchanged, every object allocated before is unchanged, and the registry is
unchanged.  For the template registered in the initial state with message
"failed a=%d", formatting with the argument 5 gives a new object with message
"failed a=5" under every formatting function that agrees with `fmt.Sprintf` on
the modelled fragment (there is one), and after that call the template, read
through its pointer or through the registry, still has message
"failed a=%d". -/
theorem Format_copies {α : Type} (sprintf : String → List α → String)
    (s : ProgramState) (e : Addr) (v : Error) (a : List α)
    (hv : s.deref (some e) = some v) :
    (∃ (m : String) (r : Error) (q : Addr) (s' : ProgramState),
      GetMessage (some v) = .ok m ∧
      s.Format sprintf (some e) a = (.ok (some q), s') ∧
      s'.deref (some q) = some r ∧
      Format sprintf (some v) a = .ok (some r) ∧
      r.Code = v.Code ∧ r.Status = v.Status ∧ r.Hint = v.Hint ∧
      r.Message = sprintf m a ∧
      (v.Code ≠ 0 → v.Code ≠ 111111 → r.Message = sprintf v.Message a) ∧
      q ≠ e ∧ s.deref (some q) = none ∧
      s'.deref (some e) = some v ∧
      GetMessage (s'.deref (some e)) = .ok m ∧
      (∀ p, s.Holds p → s'.deref p = s.deref p) ∧
      s'.registry = s.registry ∧
      ((∀ k, s.Holds (s.registry k)) → s'.catalog = s.catalog)) ∧
    ((ProgramState.initial.NewError 100 500 "failed a=%d").1 = .ok (some 0) ∧
      (ProgramState.initial.NewError 100 500 "failed a=%d").2.deref (some 0) =
        some { Status := 500, Code := 100, Message := "failed a=%d",
               Origin := none, Hint := "" } ∧
      (∀ sprintfInt : String → List Int → String, AgreesWithFragment sprintfInt →
        ((ProgramState.initial.NewError 100 500 "failed a=%d").2.Format sprintfInt
            (some 0) [5]).1 = .ok (some 1) ∧
        ((ProgramState.initial.NewError 100 500 "failed a=%d").2.Format sprintfInt
            (some 0) [5]).2.deref (some 1) =
          some { Status := 500, Code := 100, Message := "failed a=5",
                 Origin := none, Hint := "" } ∧
        ((ProgramState.initial.NewError 100 500 "failed a=%d").2.Format sprintfInt
            (some 0) [5]).2.deref (some 0) =
          some { Status := 500, Code := 100, Message := "failed a=%d",
                 Origin := none, Hint := "" } ∧
        GetMessage
            (((ProgramState.initial.NewError 100 500 "failed a=%d").2.Format sprintfInt
              (some 0) [5]).2.deref (some 0)) = .ok "failed a=%d" ∧
        ((ProgramState.initial.NewError 100 500 "failed a=%d").2.Format sprintfInt
            (some 0) [5]).2.catalog 100 =
          some { Status := 500, Code := 100, Message := "failed a=%d",
                 Origin := none, Hint := "" }) ∧
      AgreesWithFragment sprintfOrVerbatim) := by
  refine ⟨?_, by decide, by decide, ?_, ?_⟩
  · have hholds : s.Holds (some e) := holds_of_deref s e v hv
    have he : e < s.heap.length := hholds
    obtain ⟨m, r, hm, hr, hcode, hstatus, hhint, hmsg, hplain⟩ := Format_fields sprintf v a
    have hr2 : Format sprintf (s.deref (some e)) a = .ok (some r) := by rw [hv]; exact hr
    have hkeep : (s.alloc r).2.deref (some e) = some v := by
      rw [deref_alloc_of_holds s r (some e) hholds, hv]
    refine ⟨m, r, s.heap.length, (s.alloc r).2, hm, run_Format s sprintf (some e) a r hr2,
      deref_alloc_new s r, hr, hcode, hstatus, hhint, hmsg, hplain, Nat.ne_of_gt he,
      deref_next_free s, hkeep, ?_, ?_, rfl, ?_⟩
    · rw [hkeep]
      exact hm
    · intro p hp
      exact deref_alloc_of_holds s r p hp
    · intro hreg
      exact catalog_alloc s r hreg
  · intro sprintfInt hagree
    have hfrag : sprintfFragment "failed a=%d".data [5] = some "failed a=5".data := by
      decide
    have hfmt : sprintfInt "failed a=%d" [5] = "failed a=5" :=
      hagree "failed a=%d" [5] _ hfrag
    have hd : (ProgramState.initial.NewError 100 500 "failed a=%d").2.deref (some 0) =
        some { Status := 500, Code := 100, Message := "failed a=%d",
               Origin := none, Hint := "" } := by decide
    have hF : Format sprintfInt
        ((ProgramState.initial.NewError 100 500 "failed a=%d").2.deref (some 0)) [5] =
        .ok (some { Status := 500, Code := 100, Message := "failed a=5",
                    Origin := none, Hint := "" }) := by
      rw [hd, Format_some]
      simp [hfmt, WithStack]
    rw [run_Format _ sprintfInt (some 0) [5] _ hF]
    decide
  · intro format a out h
    simp [sprintfOrVerbatim, h]

/-- Witness for C12: the template registered with message "failed a=%d",
formatted with the argument 5. -/
theorem Format_copies_witness :
    (ProgramState.initial.NewError 100 500 "failed a=%d").2.deref (some 0) =
        some { Status := 500, Code := 100, Message := "failed a=%d",
               Origin := none, Hint := "" } ∧
    ∃ (m : String) (r : Error) (q : Addr) (s' : ProgramState),
      GetMessage (some { Status := 500, Code := 100, Message := "failed a=%d",
                         Origin := none, Hint := "" }) = .ok m ∧
      (ProgramState.initial.NewError 100 500 "failed a=%d").2.Format sprintfOrVerbatim
          (some 0) [5] = (.ok (some q), s') ∧
      s'.deref (some q) = some r ∧
      Format sprintfOrVerbatim
          (some { Status := 500, Code := 100, Message := "failed a=%d",
                  Origin := none, Hint := "" }) [5] = .ok (some r) ∧
      r.Code = 100 ∧ r.Status = 500 ∧ r.Hint = "" ∧
      r.Message = sprintfOrVerbatim m [5] ∧
      ((100 : ErrorCode) ≠ 0 → (100 : ErrorCode) ≠ 111111 →
        r.Message = sprintfOrVerbatim "failed a=%d" [5]) ∧
      q ≠ 0 ∧
      (ProgramState.initial.NewError 100 500 "failed a=%d").2.deref (some q) = none ∧
      s'.deref (some 0) =
        some { Status := 500, Code := 100, Message := "failed a=%d",
               Origin := none, Hint := "" } ∧
      GetMessage (s'.deref (some 0)) = .ok m ∧
      (∀ p, (ProgramState.initial.NewError 100 500 "failed a=%d").2.Holds p →
        s'.deref p = (ProgramState.initial.NewError 100 500 "failed a=%d").2.deref p) ∧
      s'.registry = (ProgramState.initial.NewError 100 500 "failed a=%d").2.registry ∧
      ((∀ k, (ProgramState.initial.NewError 100 500 "failed a=%d").2.Holds
              ((ProgramState.initial.NewError 100 500 "failed a=%d").2.registry k)) →
        s'.catalog = (ProgramState.initial.NewError 100 500 "failed a=%d").2.catalog) :=
  ⟨by decide,
    (Format_copies sprintfOrVerbatim (ProgramState.initial.NewError 100 500 "failed a=%d").2 0
      { Status := 500, Code := 100, Message := "failed a=%d", Origin := none, Hint := "" }
      [5] (by decide)).1⟩

/-- C13: for a present receiver and any argument list, the value returned by
`Format` has an origin exactly when the receiver has one, and that origin
renders as the receiver's origin does; for a non-zero code both `Error()`
strings end in " (", the rendering of the receiver's origin, ")". -/
theorem Format_keeps_origin {α : Type} (sprintf : String → List α → String)
    (v : Error) (a : List α) :
    ∃ r : Error, Format sprintf (some v) a = .ok (some r) ∧
      (r.Origin = none ↔ v.Origin = none) ∧
      (∀ X, v.Origin = some X → ∃ w, r.Origin = some w ∧ w.render = X.render) ∧
      (v.Code ≠ 0 → ∀ X, v.Origin = some X →
        ∃ head headFormatted : String,
          Error.Error (some v) = .ok (head ++ " (" ++ X.render ++ ")") ∧
          Error.Error (some r) = .ok (headFormatted ++ " (" ++ X.render ++ ")")) := by
  refine ⟨_, Format_some sprintf v a, ?_, ?_, ?_⟩
  · cases h : v.Origin <;> simp [WithStack]
  · intro X h
    exact WithStack_render v.Origin X h
  · intro h0 X hX
    refine ⟨renderPlain (if v.Code = 111111 then "未知错误" else v.Message) v.Status v.Code,
      renderPlain
        (if v.Code = 111111 then "未知错误"
         else sprintf (if v.Code = 111111 then "未知错误" else v.Message) a) v.Status v.Code,
      ?_, ?_⟩
    · simp only [Error.Error, GetMessage_some, bind, Except.bind, ErrorCodeNil, GetCode,
        GetStatus, GetOrigin, if_neg h0, hX, renderWithOrigin_eq, renderPlain]
    · simp only [Error.Error, GetMessage_some, bind, Except.bind, ErrorCodeNil, GetCode,
        GetStatus, GetOrigin, if_neg h0, hX, WithStack, renderWithOrigin_eq,
        GoError.render, renderPlain]

/-- C14: for every receiver `e` of a program state, nil or pointing to an
allocated object, and every hint, `e.CloneWithHint(hint)` returns a pointer to
a newly allocated object whose `GetHint()` is the hint and whose `GetCode()`,
`GetStatus()` and `GetMessage()` are the receiver's; after the call the
receiver points to what it pointed to before, so its `GetHint()` is the same
as before the call, and every object allocated before and the registry are
unchanged.  On the BadFormat template registered in the initial state, the
hint "try again" gives a new object with `GetHint()` equal to "try again"
while the template's `GetHint()` is "" before and after the call. -/
theorem CloneWithHint_sets_hint (s : ProgramState) (e : Ref) (hint : String)
    (he : s.Holds e) :
    (∃ (r : Error) (q : Addr) (s' : ProgramState),
      s.CloneWithHint e hint = (.ok (some q), s') ∧
      s'.deref (some q) = some r ∧
      CloneWithHint (s.deref e) hint = .ok (some r) ∧
      GetHint (s'.deref (some q)) = .ok hint ∧
      GetCode (s'.deref (some q)) = GetCode (s.deref e) ∧
      GetStatus (s'.deref (some q)) = GetStatus (s.deref e) ∧
      GetMessage (s'.deref (some q)) = GetMessage (s.deref e) ∧
      some q ≠ e ∧ s.deref (some q) = none ∧
      s'.deref e = s.deref e ∧
      GetHint (s'.deref e) = GetHint (s.deref e) ∧
      (∃ own, GetHint (s'.deref e) = .ok own) ∧
      (∀ p, s.Holds p → s'.deref p = s.deref p) ∧
      s'.registry = s.registry) ∧
    ((ProgramState.initial.NewError 1 400 "格式错误").1 = .ok (some 0) ∧
      GetHint ((ProgramState.initial.NewError 1 400 "格式错误").2.deref (some 0)) = .ok "" ∧
      ((ProgramState.initial.NewError 1 400 "格式错误").2.CloneWithHint (some 0)
          "try again").1 = .ok (some 1) ∧
      GetHint
          (((ProgramState.initial.NewError 1 400 "格式错误").2.CloneWithHint (some 0)
            "try again").2.deref (some 1)) = .ok "try again" ∧
      GetHint
          (((ProgramState.initial.NewError 1 400 "格式错误").2.CloneWithHint (some 0)
            "try again").2.deref (some 0)) = .ok "") := by
  refine ⟨?_, by decide, by decide, by decide, by decide, by decide⟩
  obtain ⟨r, hr, hhint, hcode, hstatus, hmsg, own, hown⟩ :=
    CloneWithHint_accessors (s.deref e) hint
  have hkeep : (s.alloc r).2.deref e = s.deref e := deref_alloc_of_holds s r e he
  have hnew : (s.alloc r).2.deref (some s.heap.length) = some r := deref_alloc_new s r
  have hfresh : some s.heap.length ≠ e := by
    intro h
    subst h
    exact Nat.lt_irrefl _ he
  refine ⟨r, s.heap.length, (s.alloc r).2, run_CloneWithHint s e hint r hr, hnew, hr,
    ?_, ?_, ?_, ?_, hfresh, deref_next_free s, hkeep, ?_, ?_, ?_, rfl⟩
  · rw [hnew]; exact hhint
  · rw [hnew]; exact hcode
  · rw [hnew]; exact hstatus
  · rw [hnew]; exact hmsg
  · rw [hkeep]
  · rw [hkeep]; exact ⟨own, hown⟩
  · intro p hp
    exact deref_alloc_of_holds s r p hp

/-- Witness for C14: the BadFormat template registered in the initial state,
with the hint "try again". -/
theorem CloneWithHint_sets_hint_witness :
    (ProgramState.initial.NewError 1 400 "格式错误").2.Holds (some 0) ∧
    ∃ (r : Error) (q : Addr) (s' : ProgramState),
      (ProgramState.initial.NewError 1 400 "格式错误").2.CloneWithHint (some 0)
          "try again" = (.ok (some q), s') ∧
      s'.deref (some q) = some r ∧
      CloneWithHint ((ProgramState.initial.NewError 1 400 "格式错误").2.deref (some 0))
          "try again" = .ok (some r) ∧
      GetHint (s'.deref (some q)) = .ok "try again" ∧
      GetCode (s'.deref (some q)) =
        GetCode ((ProgramState.initial.NewError 1 400 "格式错误").2.deref (some 0)) ∧
      GetStatus (s'.deref (some q)) =
        GetStatus ((ProgramState.initial.NewError 1 400 "格式错误").2.deref (some 0)) ∧
      GetMessage (s'.deref (some q)) =
        GetMessage ((ProgramState.initial.NewError 1 400 "格式错误").2.deref (some 0)) ∧
      some q ≠ some 0 ∧
      (ProgramState.initial.NewError 1 400 "格式错误").2.deref (some q) = none ∧
      s'.deref (some 0) =
        (ProgramState.initial.NewError 1 400 "格式错误").2.deref (some 0) ∧
      GetHint (s'.deref (some 0)) =
        GetHint ((ProgramState.initial.NewError 1 400 "格式错误").2.deref (some 0)) ∧
      (∃ own, GetHint (s'.deref (some 0)) = .ok own) ∧
      (∀ p, (ProgramState.initial.NewError 1 400 "格式错误").2.Holds p →
        s'.deref p = (ProgramState.initial.NewError 1 400 "格式错误").2.deref p) ∧
      s'.registry = (ProgramState.initial.NewError 1 400 "格式错误").2.registry :=
  ⟨by decide,
    (CloneWithHint_sets_hint (ProgramState.initial.NewError 1 400 "格式错误").2 (some 0)
      "try again" (by decide)).1⟩

theorem CloneWithHint_rendering (v : Error) (hint : String) (X : GoError)
    (hcode : v.Code ≠ 0) (horigin : v.Origin = some X) :
    ∃ r : Error, CloneWithHint (some v) hint = .ok (some r) ∧
      r.Origin = some (.withMessage X hint) ∧
      Error.Error (some r) =
        .ok ((if v.Code = 111111 then "未知错误" else v.Message) ++ "[" ++ toString v.Status
              ++ "][" ++ toString v.Code ++ "] (" ++ hint ++ ": " ++ X.render ++ ")") := by
  refine ⟨_, CloneWithHint_some v hint, ?_, ?_⟩
  · simp only [horigin, WithMessage]
  · have h1 : (if v.Code = 111111 then "未知错误"
        else if v.Code = 111111 then "未知错误" else v.Message) =
        (if v.Code = 111111 then "未知错误" else v.Message) := by
      split_ifs <;> rfl
    simp only [Error.Error, GetMessage_some, bind, Except.bind, ErrorCodeNil, GetCode,
      GetStatus, GetOrigin, if_neg hcode, horigin, WithMessage, renderWithOrigin,
      GoError.render, h1, String.append_assoc]

theorem message_idempotent (code : ErrorCode) (message : String) :
    (if code = 0 then "ok" else if code = 111111 then "未知错误"
      else (if code = 0 then "ok" else if code = 111111 then "未知错误" else message)) =
    (if code = 0 then "ok" else if code = 111111 then "未知错误" else message) := by
  split_ifs <;> rfl

/-- C15 (as stated, refuted): the BadFormat template has a non-zero code and no
origin; after `CloneWithHint("try again")` its `Error()` is "格式错误[400][1]",
which does not contain the hint. -/
theorem CloneWithHint_hint_visible_counterexample :
    ∃ r : Error,
      CloneWithHint (some { Status := 400, Code := 1, Message := "格式错误",
                            Origin := none, Hint := "" }) "try again" = .ok (some r) ∧
        GetCode (some r) ≠ 0 ∧ GetHint (some r) = .ok "try again" ∧
        Error.Error (some r) = .ok "格式错误[400][1]" ∧
        ¬ Contains "格式错误[400][1]" "try again" :=
  ⟨{ Status := 400, Code := 1, Message := "格式错误", Origin := none, Hint := "try again" },
    by decide, by decide, by decide, by decide, by decide⟩

/-- C15 (amended): for every receiver whose code is not 0 and every hint,
`CloneWithHint(hint).GetHint()` is the hint; when the receiver carries an
origin, the `Error()` string of the clone contains the hint; when it carries
none, the clone has no origin either and its `Error()` is the receiver's. -/
theorem CloneWithHint_hint_visible (e : ErrorPtr) (hint : String)
    (hcode : GetCode e ≠ 0) :
    ∃ r : Error, CloneWithHint e hint = .ok (some r) ∧
      GetHint (some r) = .ok hint ∧
      (∀ X, GetOrigin e = some X →
        ∃ s, Error.Error (some r) = .ok s ∧ Contains s hint) ∧
      (GetOrigin e = none →
        r.Origin = none ∧ Error.Error (some r) = Error.Error e) := by
  cases e with
  | none => exact absurd rfl hcode
  | some v =>
    have h0 : v.Code ≠ 0 := hcode
    refine ⟨_, CloneWithHint_some v hint, rfl, ?_, ?_⟩
    · intro X hX
      have hX : v.Origin = some X := hX
      obtain ⟨r, hr, _, hrender⟩ := CloneWithHint_rendering v hint X h0 hX
      rw [CloneWithHint_some] at hr
      cases hr
      refine ⟨_, hrender, ?_⟩
      refine ⟨((if v.Code = 111111 then "未知错误" else v.Message) ++ "[" ++ toString v.Status
              ++ "][" ++ toString v.Code ++ "] (").data, (": " ++ X.render ++ ")").data, ?_⟩
      simp only [String.data_append, List.append_assoc]
    · intro hnone
      have hnone : v.Origin = none := hnone
      refine ⟨by simp only [hnone, WithMessage], ?_⟩
      simp only [Error.Error, GetMessage_some, bind, Except.bind, ErrorCodeNil, GetCode,
        GetStatus, GetOrigin, if_neg h0, hnone, WithMessage, message_idempotent]
      split_ifs <;> rfl

/-- Witness for C15 (amended): BadFormat carrying the cause "disk full". -/
theorem CloneWithHint_hint_visible_witness :
    GetCode (some { Status := 400, Code := 1, Message := "格式错误",
                    Origin := some (.foreign "disk full"), Hint := "" }) ≠ 0 ∧
    ∃ r : Error,
      CloneWithHint (some { Status := 400, Code := 1, Message := "格式错误",
                            Origin := some (.foreign "disk full"), Hint := "" })
          "try again" = .ok (some r) ∧
      GetHint (some r) = .ok "try again" ∧
      (∀ X, GetOrigin (some { Status := 400, Code := 1, Message := "格式错误",
                              Origin := some (.foreign "disk full"), Hint := "" }) = some X →
        ∃ s, Error.Error (some r) = .ok s ∧ Contains s "try again") ∧
      (GetOrigin (some { Status := 400, Code := 1, Message := "格式错误",
                         Origin := some (.foreign "disk full"), Hint := "" }) = none →
        r.Origin = none ∧
        Error.Error (some r) =
          Error.Error (some { Status := 400, Code := 1, Message := "格式错误",
                              Origin := some (.foreign "disk full"), Hint := "" })) :=
  ⟨by decide, CloneWithHint_hint_visible _ "try again" (by decide)⟩

/-- C16: for every receiver, `IsNil()` is true exactly when `GetCode()` is 0,
`IsNotNil()` is the negation of `IsNil()`, and `Ok()` returns what `IsNil()`
returns. -/
theorem IsNil_iff_code_zero (e : ErrorPtr) :
    (IsNil e = true ↔ GetCode e = 0) ∧ IsNotNil e = !IsNil e ∧ Ok e = IsNil e := by
  refine ⟨?_, rfl, rfl⟩
  simp [IsNil, ErrorCodeNil]

/-- C17 (as stated, refuted): by the struct tags the serialised keys are
"code", "message", "origin" and "hint"; `Origin` is tagged "origin" and is
therefore not excluded, so the keys are not exactly "code", "message", "hint". -/
theorem jsonKeys_counterexample :
    ("Origin", "origin") ∈ jsonTags ∧ "origin" ∈ jsonKeys jsonTags ∧
      jsonKeys jsonTags ≠ ["code", "message", "hint"] := by
  decide

/-- C17 (amended): the serialised shape fixed by the struct tags consists of
exactly the keys "code", "message", "origin" and "hint", in this order: only
`Status` (tagged "-") is excluded, and every other field is included under the
key named in its tag. -/
theorem jsonKeys_of_Error :
    jsonKeys jsonTags = ["code", "message", "origin", "hint"] ∧
      (∀ field ∈ jsonTags, field.2 ∈ jsonKeys jsonTags ↔ field.1 ≠ "Status") := by
  decide

/-- C19: for a receiver with non-zero code that carries an origin `X`, the
`Error()` of `CloneWithHint(hint)` is the receiver's `GetMessage()`, "[",
status, "][", code, "] (", hint, ": ", the rendering of `X`, ")"; the new
origin wraps `X` and its rendering ends with the rendering of `X`. -/
theorem CloneWithHint_wraps_origin (e : ErrorPtr) (hint : String) (X : GoError)
    (hcode : GetCode e ≠ 0) (horigin : GetOrigin e = some X) :
    ∃ (m : String) (r : Error), GetMessage e = .ok m ∧
      CloneWithHint e hint = .ok (some r) ∧
      Error.Error (some r) =
        .ok (m ++ "[" ++ toString (GetStatus e) ++ "][" ++ toString (GetCode e) ++ "] ("
              ++ hint ++ ": " ++ X.render ++ ")") ∧
      r.Origin = some (.withMessage X hint) ∧
      (∀ w, r.Origin = some w →
        w.render = hint ++ ": " ++ X.render ∧ X.render.data <:+ w.render.data) := by
  cases e with
  | none => exact absurd rfl hcode
  | some v =>
    have h0 : v.Code ≠ 0 := hcode
    have hX : v.Origin = some X := horigin
    obtain ⟨r, hr, horig, hrender⟩ := CloneWithHint_rendering v hint X h0 hX
    refine ⟨_, r, GetMessage_some v, hr, ?_, horig, ?_⟩
    · rw [hrender, if_neg h0]
      rfl
    · intro w hw
      rw [horig] at hw
      cases hw
      refine ⟨rfl, ?_⟩
      simp only [GoError.render, String.data_append]
      exact List.suffix_append _ _

/-- Witness for C19: BadFormat carrying the cause "disk full", with the hint
"try again". -/
theorem CloneWithHint_wraps_origin_witness :
    (GetCode (some { Status := 400, Code := 1, Message := "格式错误",
                     Origin := some (.foreign "disk full"), Hint := "" }) ≠ 0 ∧
      GetOrigin (some { Status := 400, Code := 1, Message := "格式错误",
                        Origin := some (.foreign "disk full"), Hint := "" }) =
        some (.foreign "disk full")) ∧
    ∃ (m : String) (r : Error),
      GetMessage (some { Status := 400, Code := 1, Message := "格式错误",
                         Origin := some (.foreign "disk full"), Hint := "" }) = .ok m ∧
      CloneWithHint (some { Status := 400, Code := 1, Message := "格式错误",
                            Origin := some (.foreign "disk full"), Hint := "" })
          "try again" = .ok (some r) ∧
      Error.Error (some r) =
        .ok (m ++ "[" ++ toString (400 : Int) ++ "][" ++ toString (1 : ErrorCode) ++ "] ("
              ++ "try again" ++ ": " ++ "disk full" ++ ")") ∧
      r.Origin = some (.withMessage (.foreign "disk full") "try again") ∧
      (∀ w, r.Origin = some w →
        w.render = "try again" ++ ": " ++ "disk full" ∧
          "disk full".data <:+ w.render.data) :=
  ⟨⟨by decide, rfl⟩,
    CloneWithHint_wraps_origin
      (some { Status := 400, Code := 1, Message := "格式错误",
              Origin := some (.foreign "disk full"), Hint := "" })
      "try again" (.foreign "disk full") (by decide) rfl⟩

/-- C20: for every receiver, nil or present, the values returned by
`CloneWithOriginError` and by `CloneWithHint` have a stored `Message` equal to
their own `GetMessage()` and to the receiver's `GetMessage()`; applying either
derivation again to such a value leaves the stored `Message`, `Code` and
`Status` unchanged. -/
theorem derivations_normalise_message (e : ErrorPtr) (origin : Option GoError)
    (hint : String) :
    (∃ r : Error, CloneWithOriginError e origin = .ok (some r) ∧
      GetMessage (some r) = .ok r.Message ∧ GetMessage e = .ok r.Message ∧
      (∀ origin2, ∃ r2 : Error, CloneWithOriginError (some r) origin2 = .ok (some r2) ∧
        r2.Message = r.Message ∧ r2.Code = r.Code ∧ r2.Status = r.Status) ∧
      (∀ hint2, ∃ r2 : Error, CloneWithHint (some r) hint2 = .ok (some r2) ∧
        r2.Message = r.Message ∧ r2.Code = r.Code ∧ r2.Status = r.Status)) ∧
    (∃ r : Error, CloneWithHint e hint = .ok (some r) ∧
      GetMessage (some r) = .ok r.Message ∧ GetMessage e = .ok r.Message ∧
      (∀ origin2, ∃ r2 : Error, CloneWithOriginError (some r) origin2 = .ok (some r2) ∧
        r2.Message = r.Message ∧ r2.Code = r.Code ∧ r2.Status = r.Status) ∧
      (∀ hint2, ∃ r2 : Error, CloneWithHint (some r) hint2 = .ok (some r2) ∧
        r2.Message = r.Message ∧ r2.Code = r.Code ∧ r2.Status = r.Status)) := by
  cases e with
  | none =>
    refine ⟨⟨_, CloneWithOriginError_none origin, by simp [GetMessage_some],
        GetMessage_none, ?_, ?_⟩,
      ⟨_, CloneWithHint_none hint, by simp [GetMessage_some], GetMessage_none, ?_, ?_⟩⟩
    · intro origin2
      exact ⟨_, CloneWithOriginError_some _ origin2, rfl, rfl, rfl⟩
    · intro hint2
      exact ⟨_, CloneWithHint_some _ hint2, rfl, rfl, rfl⟩
    · intro origin2
      exact ⟨_, CloneWithOriginError_some _ origin2, rfl, rfl, rfl⟩
    · intro hint2
      exact ⟨_, CloneWithHint_some _ hint2, rfl, rfl, rfl⟩
  | some v =>
    refine ⟨⟨_, CloneWithOriginError_some v origin, ?_, GetMessage_some v, ?_, ?_⟩,
      ⟨_, CloneWithHint_some v hint, ?_, GetMessage_some v, ?_, ?_⟩⟩
    · rw [GetMessage_some, message_idempotent]
    · intro origin2
      exact ⟨_, CloneWithOriginError_some _ origin2, message_idempotent _ _, rfl, rfl⟩
    · intro hint2
      exact ⟨_, CloneWithHint_some _ hint2, message_idempotent _ _, rfl, rfl⟩
    · rw [GetMessage_some, message_idempotent]
    · intro origin2
      exact ⟨_, CloneWithOriginError_some _ origin2, message_idempotent _ _, rfl, rfl⟩
    · intro hint2
      exact ⟨_, CloneWithHint_some _ hint2, message_idempotent _ _, rfl, rfl⟩

end Errors
